import Mathlib

/-!
Shallow embedding of the statistical-distribution engine in
statista/distributions.py: the plotting-position calculator, the four
distribution families (Gumbel, GEV, Exponential, Normal) with their
pdf/cdf/quantile operations and validation rules, the parameter-estimation
dispatcher, the goodness-of-fit runners, and the Gumbel closed-form
confidence interval.

Modelling conventions:
* Numeric values live in an arbitrary linear ordered field.  The numerical
  library primitives the code consumes as black boxes (np.log, np.sqrt,
  norm.ppf, the scipy pdf/cdf/ppf/fit evaluators, so.fmin, ks_2samp and the
  chi-square test) are passed in as function parameters, mirroring the spec
  which treats them as external building blocks.
* Python exceptions become an error type; a fallible operation returns
  Except.  Methods that can both raise and mutate instance state return a
  pair of the outcome and the post-call state, the state being the pre-call
  state whenever the source raises before any assignment.
* Python truthiness in the buggy guards such as the source line
  if any(cdf) <= 0 or any(cdf) > 1: is embedded literally: builtin any
  yields a Bool (an element is truthy iff it is nonzero) which is then
  compared to the numbers 0 and 1 with False = 0 and True = 1.
-/

namespace Statista

/-- Exception outcomes of the Python code.  The first six constructors are
ValueError cases (distinguished by their message), missingArgument is the
TypeError raised by the optimization branch, attributeMissing is an
AttributeError from reading a never-assigned instance attribute, and
indexOutOfRange is an IndexError. -/
inductive PyErr where
  | scaleNeg
  | paramsInvalid
  | locNonPos
  | cdfInvalid
  | notFit
  | invalidMethod
  | missingArgument
  | attributeMissing
  | indexOutOfRange
  deriving DecidableEq, Repr

/-- Which exceptions are (subclasses of) ValueError in the source. -/
def PyErr.isValueError : PyErr → Bool
  | .scaleNeg => true
  | .paramsInvalid => true
  | .locNonPos => true
  | .cdfInvalid => true
  | .notFit => true
  | .invalidMethod => true
  | .missingArgument => false
  | .attributeMissing => false
  | .indexOutOfRange => false

/-- Two-parameter ParameterSet {"loc": _, "scale": _} used by Gumbel,
Exponential and Normal. -/
structure Params2 (α : Type) where
  loc : α
  scale : α
  deriving DecidableEq, Repr

/-- Three-parameter ParameterSet {"loc": _, "scale": _, "shape": _} used by
GEV. -/
structure Params3 (α : Type) where
  loc : α
  scale : α
  shape : α
  deriving DecidableEq, Repr

/-- Python bool-to-number coercion (False = 0, True = 1), used when the
source compares the result of builtin any to a number. -/
def boolToInt (b : Bool) : Int := if b then 1 else 0

/-- Python str.lower, mapping Char.toLower over the character list
(String.toLower itself recurses on byte positions by well-founded
recursion, which blocks definitional evaluation; this is the same
function). -/
def strLower (s : String) : String := String.mk (s.data.map Char.toLower)

section Embedding

variable {α : Type} [LinearOrderedField α]

/-- Python builtin any over a numeric sequence: True iff some element is
truthy, i.e. nonzero.  any of the empty sequence is False. -/
def pyAny (l : List α) : Bool := l.any (fun x => decide (x ≠ 0))

/-- The guard fragment any(cdf) <= 0 as Python evaluates it: the Bool
any(cdf) is coerced to 0 or 1 and compared with 0. -/
def anyLeZero (l : List α) : Bool := decide (boolToInt (pyAny l) ≤ 0)

/-- The guard fragment any(cdf) < 0 as Python evaluates it. -/
def anyLtZero (l : List α) : Bool := decide (boolToInt (pyAny l) < 0)

/-- The guard fragment any(cdf) > 1 as Python evaluates it. -/
def anyGtOne (l : List α) : Bool := decide (boolToInt (pyAny l) > 1)

namespace PlottingPosition

/-- PlottingPosition.return_period: elementwise 1 / (1 - F). -/
def return_period (F : List α) : List α := F.map (fun f => 1 / (1 - f))

/-- PlottingPosition.weibul.  The source does data = np.array(data) (a fresh
copy), sorts that copy in place, takes n = len(data), and builds
cdf = [1..n] / (n + 1); with the flag set it instead returns the return
periods of those probabilities. -/
def weibul (data : List α) (returnPeriod : Bool) : List α :=
  let arr := List.insertionSort (fun a b => a ≤ b) data
  let n := arr.length
  let cdf := (List.range n).map
    (fun i : Nat => ((i : α) + 1) / ((n : α) + 1))
  if returnPeriod = false then cdf else return_period cdf

/-- weibul together with its frame effect on the caller: the pair of the
returned list and the caller's array after the call.  np.array(data)
allocates a fresh buffer (numpy copies by default), and .sort() mutates only
that copy, so the caller's argument is returned unchanged. -/
def weibulCall (data : List α) (returnPeriod : Bool) : List α × List α :=
  (weibul data returnPeriod, data)

end PlottingPosition

namespace Gumbel

/-- Gumbel._pdf_eq: validates scale > 0, then evaluates gumbel_r.pdf (the
library primitive, passed in as gumbelPdf taking the point, loc and scale)
over the data. -/
def pdf_eq (gumbelPdf : α → α → α → α) (data : List α) (p : Params2 α) :
    Except PyErr (List α) :=
  if p.scale ≤ 0 then .error .scaleNeg
  else .ok (data.map (fun x => gumbelPdf x p.loc p.scale))

/-- Gumbel.pdf: selects the series (caller data here) and delegates to
_pdf_eq; the plotting branch only renders a figure and is out of scope. -/
def pdf (gumbelPdf : α → α → α → α) (data : List α) (p : Params2 α) :
    Except PyErr (List α) :=
  pdf_eq gumbelPdf data p

/-- Gumbel._cdf_eq: validates scale > 0, then evaluates gumbel_r.cdf. -/
def cdf_eq (gumbelCdf : α → α → α → α) (data : List α) (p : Params2 α) :
    Except PyErr (List α) :=
  if p.scale ≤ 0 then .error .scaleNeg
  else .ok (data.map (fun x => gumbelCdf x p.loc p.scale))

/-- Gumbel.cdf: delegates to _cdf_eq. -/
def cdf (gumbelCdf : α → α → α → α) (data : List α) (p : Params2 α) :
    Except PyErr (List α) :=
  cdf_eq gumbelCdf data p

/-- Gumbel.theoretical_estimate: checks scale > 0, runs the (buggy) guard
if any(cdf) <= 0 or any(cdf) > 1: and then computes the closed-form
quantile loc - scale * ln(-ln(F)) elementwise, ln being np.log passed in
as logP. -/
def theoretical_estimate (logP : α → α) (p : Params2 α) (cdf : List α) :
    Except PyErr (List α) :=
  if p.scale ≤ 0 then .error .scaleNeg
  else if anyLeZero cdf || anyGtOne cdf then .error .cdfInvalid
  else .ok (cdf.map (fun f => p.loc - p.scale * logP (-(logP f))))

end Gumbel

/-- The bound-building loops of Gumbel.confidence_interval:
[Qth[j] + v*StdError[j] for j in range(len(self.data))] (and the minus
variant).  Indexing a sequence out of range raises IndexError, at the first
offending index. -/
def boundLoop (f : α → α → α) (qth se : List α) :
    List Nat → Except PyErr (List α)
  | [] => .ok []
  | j :: js =>
    match qth[j]?, se[j]? with
    | some q, some s =>
      match boundLoop f qth se js with
      | .ok rest => .ok (f q s :: rest)
      | .error e => .error e
    | some _, none => .error .indexOutOfRange
    | none, _ => .error .indexOutOfRange

namespace Gumbel

/-- Gumbel.confidence_interval: checks scale > 0, computes
Qth = theoretical_estimate(parameters, F), the reduced variates
Y = [-ln(-ln(j)) for j in F], the standard errors
(scale/sqrt(n)) * sqrt(1.1087 + 0.5140*y + 0.6079*y^2), the normal quantile
v = norm.ppf(1 - alpha/2), and the two bound lists indexed by
range(len(self.data)).  np.log, np.sqrt and norm.ppf are the primitives
logP, sqrtP and ppfP. -/
def confidence_interval (logP sqrtP ppfP : α → α) (data : List α)
    (p : Params2 α) (F : List α) (alpha : α) :
    Except PyErr (List α × List α) :=
  if p.scale ≤ 0 then .error .scaleNeg
  else
    match theoretical_estimate logP p F with
    | .error e => .error e
    | .ok qth =>
      let y := F.map (fun j => -(logP (-(logP j))))
      let se := y.map (fun j =>
        (p.scale / sqrtP ((data.length : α))) *
          sqrtP ((11087 : α) / 10000 + (5140 : α) / 10000 * j +
            (6079 : α) / 10000 * j ^ 2))
      let v := ppfP (1 - alpha / 2)
      match boundLoop (fun q s => q + v * s) qth se
          (List.range data.length) with
      | .error e => .error e
      | .ok qupper =>
        match boundLoop (fun q s => q - v * s) qth se
            (List.range data.length) with
        | .error e => .error e
        | .ok qlower => .ok (qupper, qlower)

/-- The theoretical quantile Qth[i] of Gumbel.confidence_interval:
loc - scale * ln(-ln(F[i])). -/
def theoreticalQuantile (logP : α → α) (p : Params2 α) (F : List α)
    (i : Nat) : α :=
  p.loc - p.scale * logP (-(logP (F.getD i 0)))

/-- The reduced variate Y[i] = -ln(-ln(F[i])) of
Gumbel.confidence_interval. -/
def reducedVariate (logP : α → α) (F : List α) (i : Nat) : α :=
  -(logP (-(logP (F.getD i 0))))

/-- The asymptotic standard error StdError[i] of
Gumbel.confidence_interval: (scale/sqrt(n)) * sqrt(1.1087 + 0.5140*y +
0.6079*y^2) at y = Y[i]. -/
def stdError (logP sqrtP : α → α) (n : Nat) (p : Params2 α) (F : List α)
    (i : Nat) : α :=
  (p.scale / sqrtP ((n : α))) *
    sqrtP ((11087 : α) / 10000 + (5140 : α) / 10000 * reducedVariate logP F i +
      (6079 : α) / 10000 * reducedVariate logP F i ^ 2)

/-- Gumbel.estimate_parameter, the dispatcher over the parameter
computation (the self.parameters assignment and the optional
goodness-of-fit phase are modelled by runTests below).  fit models
gumbel_r.fit(data, method) returning [loc, scale]; lmomFit models the
Lmoments pipeline; fmin models so.fmin(obj, x0, args=(data,), maxiter,
maxfun) returning a vector shaped like x0. -/
def estimate_parameter (fit : List α → String → List α)
    (lmomFit : List α → List α)
    (fmin : (List α → List α → α) → List α → List α → Nat → Nat → List α)
    (method : String) (objFunc : Option (List α → List α → α))
    (threshold : Option α) (data : List α) : Except PyErr (Params2 α) :=
  let m := strLower method
  if m ≠ "mle" ∧ m ≠ "mm" ∧ m ≠ "lmoments" ∧ m ≠ "optimization" then
    .error .invalidMethod
  else if m = "mle" ∨ m = "mm" then
    let prm := fit data m
    .ok ⟨prm.getD 0 0, prm.getD 1 0⟩
  else if m = "lmoments" then
    let prm := lmomFit data
    .ok ⟨prm.getD 0 0, prm.getD 1 0⟩
  else
    match objFunc, threshold with
    | some f, some t =>
      let p0 := fit data "mle"
      let r := fmin f [t, p0.getD 0 0, p0.getD 1 0] data 500 500
      .ok ⟨r.getD 1 0, r.getD 2 0⟩
    | some _, none => .error .missingArgument
    | none, _ => .error .missingArgument

end Gumbel

namespace GEV

/-- GEV._pdf_eq / GEV.pdf: evaluates genextreme.pdf (gevPdf taking the
point, shape, loc and scale) with NO parameter validation — neither
_pdf_eq nor the pdf wrapper checks the scale. -/
def pdf (gevPdf : α → α → α → α → α) (data : List α) (p : Params3 α) :
    Except PyErr (List α) :=
  .ok (data.map (fun x => gevPdf x p.shape p.loc p.scale))

/-- GEV.cdf: the wrapper checks scale > 0 and then _cdf_eq evaluates
genextreme.cdf. -/
def cdf (gevCdf : α → α → α → α → α) (data : List α) (p : Params3 α) :
    Except PyErr (List α) :=
  if p.scale ≤ 0 then .error .scaleNeg
  else .ok (data.map (fun x => gevCdf x p.shape p.loc p.scale))

/-- GEV.theoretical_estimate: checks scale > 0, runs the (vacuous) guard
if any(F) < 0 or any(F) > 1: and evaluates genextreme.ppf. -/
def theoretical_estimate (gevPpf : α → α → α → α → α) (p : Params3 α)
    (F : List α) : Except PyErr (List α) :=
  if p.scale ≤ 0 then .error .paramsInvalid
  else if anyLtZero F || anyGtOne F then .error .cdfInvalid
  else .ok (F.map (fun f => gevPpf f p.shape p.loc p.scale))

/-- GEV.estimate_parameter.  genextreme.fit returns (shape, loc, scale); the
optimization branch seeds so.fmin with [threshold, shape, loc, scale] and
drops the first component of the result; the final ParameterSet is
{"loc": Param[1], "scale": Param[2], "shape": Param[0]} of the list that
remains. -/
def estimate_parameter (fit : List α → String → List α)
    (lmomFit : List α → List α)
    (fmin : (List α → List α → α) → List α → List α → Nat → Nat → List α)
    (method : String) (objFunc : Option (List α → List α → α))
    (threshold : Option α) (data : List α) : Except PyErr (Params3 α) :=
  let m := strLower method
  if m ≠ "mle" ∧ m ≠ "mm" ∧ m ≠ "lmoments" ∧ m ≠ "optimization" then
    .error .invalidMethod
  else if m = "mle" ∨ m = "mm" then
    let prm := fit data m
    .ok ⟨prm.getD 1 0, prm.getD 2 0, prm.getD 0 0⟩
  else if m = "lmoments" then
    let prm := lmomFit data
    .ok ⟨prm.getD 1 0, prm.getD 2 0, prm.getD 0 0⟩
  else
    match objFunc, threshold with
    | some f, some t =>
      let p0 := fit data "mle"
      let r := fmin f [t, p0.getD 0 0, p0.getD 1 0, p0.getD 2 0] data 500 500
      .ok ⟨r.getD 2 0, r.getD 3 0, r.getD 1 0⟩
    | some _, none => .error .missingArgument
    | none, _ => .error .missingArgument

end GEV

namespace Exponential

/-- Exponential._pdf_eq: no validation, evaluates expon.pdf. -/
def pdf_eq (expPdf : α → α → α → α) (data : List α) (p : Params2 α) :
    List α :=
  data.map (fun x => expPdf x p.loc p.scale)

/-- Exponential.pdf: the wrapper checks scale > 0 (and nothing about loc),
then delegates to _pdf_eq. -/
def pdf (expPdf : α → α → α → α) (data : List α) (p : Params2 α) :
    Except PyErr (List α) :=
  if p.scale ≤ 0 then .error .scaleNeg
  else .ok (pdf_eq expPdf data p)

/-- Exponential._cdf_eq: checks scale > 0 AND loc > 0, then evaluates
expon.cdf. -/
def cdf_eq (expCdf : α → α → α → α) (data : List α) (p : Params2 α) :
    Except PyErr (List α) :=
  if p.scale ≤ 0 then .error .scaleNeg
  else if p.loc ≤ 0 then .error .locNonPos
  else .ok (data.map (fun x => expCdf x p.loc p.scale))

/-- Exponential.cdf: delegates to _cdf_eq. -/
def cdf (expCdf : α → α → α → α) (data : List α) (p : Params2 α) :
    Except PyErr (List α) :=
  cdf_eq expCdf data p

/-- Exponential.theoretical_estimate: checks scale > 0, runs the (vacuous)
guard if any(cdf) < 0 or any(cdf) > 1: and evaluates expon.ppf. -/
def theoretical_estimate (expPpf : α → α → α → α) (p : Params2 α)
    (cdf : List α) : Except PyErr (List α) :=
  if p.scale ≤ 0 then .error .paramsInvalid
  else if anyLtZero cdf || anyGtOne cdf then .error .cdfInvalid
  else .ok (cdf.map (fun f => expPpf f p.loc p.scale))

/-- Exponential.estimate_parameter: same shape as Gumbel's (expon.fit
returns (loc, scale)). -/
def estimate_parameter (fit : List α → String → List α)
    (lmomFit : List α → List α)
    (fmin : (List α → List α → α) → List α → List α → Nat → Nat → List α)
    (method : String) (objFunc : Option (List α → List α → α))
    (threshold : Option α) (data : List α) : Except PyErr (Params2 α) :=
  let m := strLower method
  if m ≠ "mle" ∧ m ≠ "mm" ∧ m ≠ "lmoments" ∧ m ≠ "optimization" then
    .error .invalidMethod
  else if m = "mle" ∨ m = "mm" then
    let prm := fit data m
    .ok ⟨prm.getD 0 0, prm.getD 1 0⟩
  else if m = "lmoments" then
    let prm := lmomFit data
    .ok ⟨prm.getD 0 0, prm.getD 1 0⟩
  else
    match objFunc, threshold with
    | some f, some t =>
      let p0 := fit data "mle"
      let r := fmin f [t, p0.getD 0 0, p0.getD 1 0] data 500 500
      .ok ⟨r.getD 1 0, r.getD 2 0⟩
    | some _, none => .error .missingArgument
    | none, _ => .error .missingArgument

end Exponential

namespace Normal

/-- Normal.pdf: checks scale > 0 only, then evaluates norm.pdf. -/
def pdf (normPdf : α → α → α → α) (data : List α) (p : Params2 α) :
    Except PyErr (List α) :=
  if p.scale ≤ 0 then .error .scaleNeg
  else .ok (data.map (fun x => normPdf x p.loc p.scale))

/-- Normal.cdf: checks scale > 0 AND loc > 0, then evaluates norm.cdf. -/
def cdf (normCdf : α → α → α → α) (data : List α) (p : Params2 α) :
    Except PyErr (List α) :=
  if p.scale ≤ 0 then .error .scaleNeg
  else if p.loc ≤ 0 then .error .locNonPos
  else .ok (data.map (fun x => normCdf x p.loc p.scale))

/-- Normal.theoretical_estimate: checks scale > 0, runs the (vacuous) guard
if any(cdf) < 0 or any(cdf) > 1: and evaluates norm.ppf. -/
def theoretical_estimate (normPpf : α → α → α → α) (p : Params2 α)
    (cdf : List α) : Except PyErr (List α) :=
  if p.scale ≤ 0 then .error .paramsInvalid
  else if anyLtZero cdf || anyGtOne cdf then .error .cdfInvalid
  else .ok (cdf.map (fun f => normPpf f p.loc p.scale))

/-- Normal.estimate_parameter: same shape as Gumbel's (norm.fit returns
(loc, scale)). -/
def estimate_parameter (fit : List α → String → List α)
    (lmomFit : List α → List α)
    (fmin : (List α → List α → α) → List α → List α → Nat → Nat → List α)
    (method : String) (objFunc : Option (List α → List α → α))
    (threshold : Option α) (data : List α) : Except PyErr (Params2 α) :=
  let m := strLower method
  if m ≠ "mle" ∧ m ≠ "mm" ∧ m ≠ "lmoments" ∧ m ≠ "optimization" then
    .error .invalidMethod
  else if m = "mle" ∨ m = "mm" then
    let prm := fit data m
    .ok ⟨prm.getD 0 0, prm.getD 1 0⟩
  else if m = "lmoments" then
    let prm := lmomFit data
    .ok ⟨prm.getD 0 0, prm.getD 1 0⟩
  else
    match objFunc, threshold with
    | some f, some t =>
      let p0 := fit data "mle"
      let r := fmin f [t, p0.getD 0 0, p0.getD 1 0] data 500 500
      .ok ⟨r.getD 1 0, r.getD 2 0⟩
    | some _, none => .error .missingArgument
    | none, _ => .error .missingArgument

end Normal

/-- Mutable per-instance state relevant to the goodness-of-fit methods.
parameters is doubly optional: the outer none models an instance attribute
that was never assigned (reading it raises AttributeError), some none
models self.parameters = None, some (some p) a fitted/supplied
ParameterSet.  The four test statistics start out as None. -/
structure InstState (α P : Type) where
  parameters : Option (Option P)
  Dstatic : Option α
  KS_Pvalue : Option α
  chistatic : Option α
  chi_Pvalue : Option α
  deriving DecidableEq, Repr

/-- AbstractDistribution.__init__ (shared by Gumbel, GEV, Exponential):
self.parameters = parameters, the statistics set to None. -/
def initShared {P : Type} (params : Option P) : InstState α P :=
  ⟨some params, none, none, none, none⟩

/-- Normal.__init__: it stores loc and scale separately and never assigns
self.parameters, so that attribute stays missing on the instance. -/
def Normal.initState : InstState α (Params2 α) :=
  ⟨none, none, none, none, none⟩

/-- AbstractDistribution.ks as a state transformer: reading
self.parameters on an instance that never assigned it raises
AttributeError; if it is None the NotFit ValueError is raised (before any
assignment, so the state is unchanged); otherwise the theoretical
quantiles at cdf_Weibul are computed (errors propagate) and ks_2samp (the
primitive ks2samp) yields the statistic and p-value which are stored. -/
def ksRun {P : Type} (theorEst : P → List α → Except PyErr (List α))
    (ks2samp : List α → List α → α × α) (data cdfWeibul : List α)
    (st : InstState α P) : Except PyErr (α × α) × InstState α P :=
  match st.parameters with
  | none => (.error .attributeMissing, st)
  | some none => (.error .notFit, st)
  | some (some p) =>
    match theorEst p cdfWeibul with
    | .error e => (.error e, st)
    | .ok qth =>
      let r := ks2samp data qth
      (.ok r, ⟨st.parameters, some r.1, some r.2, st.chistatic,
        st.chi_Pvalue⟩)

/-- AbstractDistribution.chisquare as a state transformer: the parameter
checks and the Qth computation sit before the try block, so their errors
propagate; the chi-square evaluation (chiTest, covering
chisquare(standardize(Qth), standardize(data)) and anything it raises) is
inside try/except Exception, so on failure the method prints and returns
the None sentinel with the state untouched. -/
def chisquareRun {P : Type} (theorEst : P → List α → Except PyErr (List α))
    (chiTest : List α → List α → Except Unit (α × α))
    (data cdfWeibul : List α) (st : InstState α P) :
    Except PyErr (Option (α × α)) × InstState α P :=
  match st.parameters with
  | none => (.error .attributeMissing, st)
  | some none => (.error .notFit, st)
  | some (some p) =>
    match theorEst p cdfWeibul with
    | .error e => (.error e, st)
    | .ok qth =>
      match chiTest qth data with
      | .ok r =>
        (.ok (some r), ⟨st.parameters, st.Dstatic, st.KS_Pvalue, some r.1,
          some r.2⟩)
      | .error _ => (.ok none, st)

/-- The test phase of estimate_parameter when the test flag is set:
self.ks() (whose errors propagate) followed by self.chisquare().  wrapChi
records whether the family wraps the chisquare call in
try/except ValueError — False for Gumbel; True for GEV, Exponential and
Normal. -/
def runTests {P : Type} (theorEst : P → List α → Except PyErr (List α))
    (ks2samp : List α → List α → α × α)
    (chiTest : List α → List α → Except Unit (α × α)) (wrapChi : Bool)
    (data cdfWeibul : List α) (st : InstState α P) :
    Except PyErr (InstState α P) :=
  match ksRun theorEst ks2samp data cdfWeibul st with
  | (.error e, _) => .error e
  | (.ok _, st1) =>
    match chisquareRun theorEst chiTest data cdfWeibul st1 with
    | (.error e, st2) =>
      if wrapChi && e.isValueError then .ok st2 else .error e
    | (.ok _, st2) => .ok st2

/-- Gumbel.ks: return super().ks() with Gumbel's theoretical_estimate. -/
def Gumbel.ks (logP : α → α) (ks2samp : List α → List α → α × α)
    (data cdfWeibul : List α) (st : InstState α (Params2 α)) :
    Except PyErr (α × α) × InstState α (Params2 α) :=
  ksRun (Gumbel.theoretical_estimate logP) ks2samp data cdfWeibul st

/-- Gumbel.chisquare: return super().chisquare() with Gumbel's
theoretical_estimate. -/
def Gumbel.chisquare (logP : α → α)
    (chiTest : List α → List α → Except Unit (α × α))
    (data cdfWeibul : List α) (st : InstState α (Params2 α)) :
    Except PyErr (Option (α × α)) × InstState α (Params2 α) :=
  chisquareRun (Gumbel.theoretical_estimate logP) chiTest data cdfWeibul st

/-- Normal's inherited AbstractDistribution.ks with Normal's
theoretical_estimate. -/
def Normal.ks (normPpf : α → α → α → α)
    (ks2samp : List α → List α → α × α) (data cdfWeibul : List α)
    (st : InstState α (Params2 α)) :
    Except PyErr (α × α) × InstState α (Params2 α) :=
  ksRun (Normal.theoretical_estimate normPpf) ks2samp data cdfWeibul st

/-- Normal's inherited AbstractDistribution.chisquare with Normal's
theoretical_estimate. -/
def Normal.chisquare (normPpf : α → α → α → α)
    (chiTest : List α → List α → Except Unit (α × α))
    (data cdfWeibul : List α) (st : InstState α (Params2 α)) :
    Except PyErr (Option (α × α)) × InstState α (Params2 α) :=
  chisquareRun (Normal.theoretical_estimate normPpf) chiTest data cdfWeibul
    st

end Embedding

section Facts

variable {α : Type} [LinearOrderedField α]

theorem anyLeZero_eq_not_any (l : List α) : anyLeZero l = !pyAny l := by
  cases hp : pyAny l <;> simp [anyLeZero, boolToInt, hp]

theorem anyLeZero_eq_false {l : List α} (h : pyAny l = true) :
    anyLeZero l = false := by
  simp [anyLeZero_eq_not_any, h]

theorem anyGtOne_eq_false (l : List α) : anyGtOne l = false := by
  cases hp : pyAny l <;> simp [anyGtOne, boolToInt, hp]

theorem anyLtZero_eq_false (l : List α) : anyLtZero l = false := by
  cases hp : pyAny l <;> simp [anyLtZero, boolToInt, hp]

theorem getD_map_of_lt (f : α → α) (l : List α) {j : Nat}
    (h : j < l.length) : (l.map f).getD j 0 = f (l.getD j 0) := by
  simp [List.getD_eq_getElem?_getD, List.getElem?_map,
    List.getElem?_eq_getElem, h]

theorem getD_map_range (f : Nat → α) {j n : Nat} (h : j < n) :
    ((List.range n).map f).getD j 0 = f j := by
  simp [List.getD_eq_getElem?_getD, List.getElem?_map, List.getElem?_range, h]

theorem gumbel_te_eval (logP : α → α) (p : Params2 α) (F : List α)
    (hscale : 0 < p.scale) (hF : pyAny F = true) :
    Gumbel.theoretical_estimate logP p F =
      .ok (F.map (fun f => p.loc - p.scale * logP (-(logP f)))) := by
  simp [Gumbel.theoretical_estimate, not_le.mpr hscale,
    anyLeZero_eq_false hF, anyGtOne_eq_false]

theorem weibul_false_eq (data : List α) :
    PlottingPosition.weibul data false =
      (List.range data.length).map
        (fun i : Nat => ((i : α) + 1) / ((data.length : α) + 1)) := by
  simp only [PlottingPosition.weibul]
  rw [List.length_insertionSort]
  simp

theorem weibul_true_eq (data : List α) :
    PlottingPosition.weibul data true =
      ((List.range data.length).map
        (fun i : Nat => ((i : α) + 1) / ((data.length : α) + 1))).map
        (fun f => 1 / (1 - f)) := by
  simp only [PlottingPosition.weibul, PlottingPosition.return_period]
  rw [List.length_insertionSort]
  simp

/-- C5: for a non-empty sample of length n, weibul with return_period
False returns exactly n values, the (i+1)-st being (i+1)/(n+1) — never
equal to 1 — and with return_period True it returns the n values
1/(1 - (i+1)/(n+1)). -/
theorem weibul_values (data : List α) (i : Nat) (hn : 1 ≤ data.length)
    (hi : i < data.length) :
    (PlottingPosition.weibul data false).length = data.length ∧
    (PlottingPosition.weibul data true).length = data.length ∧
    (PlottingPosition.weibul data false).getD i 0 =
      ((i : α) + 1) / ((data.length : α) + 1) ∧
    (PlottingPosition.weibul data false).getD i 0 ≠ 1 ∧
    (PlottingPosition.weibul data true).getD i 0 =
      1 / (1 - ((i : α) + 1) / ((data.length : α) + 1)) := by
  have hpos : (0 : α) < (data.length : α) + 1 := by positivity
  have hlt : ((i : α) + 1) < ((data.length : α) + 1) := by
    have : (i : α) < (data.length : α) := by exact_mod_cast hi
    linarith
  have hne : ((i : α) + 1) / ((data.length : α) + 1) ≠ 1 :=
    ne_of_lt ((div_lt_one hpos).mpr hlt)
  have hmap : i < ((List.range data.length).map
      (fun i : Nat => ((i : α) + 1) / ((data.length : α) + 1))).length := by
    simpa using hi
  refine ⟨?_, ?_, ?_, ?_, ?_⟩
  · simp [weibul_false_eq]
  · simp [weibul_true_eq]
  · rw [weibul_false_eq, getD_map_range _ hi]
  · rw [weibul_false_eq, getD_map_range _ hi]
    exact hne
  · rw [weibul_true_eq, getD_map_of_lt _ _ hmap, getD_map_range _ hi]

theorem weibul_values_witness :
    (1 ≤ ([5, 1, 3] : List ℚ).length) ∧
    ((PlottingPosition.weibul ([5, 1, 3] : List ℚ) false).length =
      ([5, 1, 3] : List ℚ).length ∧
    (PlottingPosition.weibul ([5, 1, 3] : List ℚ) true).length =
      ([5, 1, 3] : List ℚ).length ∧
    (PlottingPosition.weibul ([5, 1, 3] : List ℚ) false).getD 1 0 =
      ((1 : Nat) + 1) / ((([5, 1, 3] : List ℚ).length : ℚ) + 1) ∧
    (PlottingPosition.weibul ([5, 1, 3] : List ℚ) false).getD 1 0 ≠ 1 ∧
    (PlottingPosition.weibul ([5, 1, 3] : List ℚ) true).getD 1 0 =
      1 / (1 - ((1 : Nat) + 1) / ((([5, 1, 3] : List ℚ).length : ℚ) + 1))) :=
  ⟨by simp, weibul_values ([5, 1, 3] : List ℚ) 1 (by simp) (by simp)⟩

/-- C9 counterexample: weibul does NOT rearrange the caller's array into
ascending order — after the call the caller's argument [3, 1, 2] is still
[3, 1, 2], not its sorted rearrangement [1, 2, 3]. -/
theorem weibul_does_not_mutate_cex :
    (PlottingPosition.weibulCall ([3, 1, 2] : List ℚ) false).2 = [3, 1, 2] ∧
    (PlottingPosition.weibulCall ([3, 1, 2] : List ℚ) false).2 ≠
      [1, 2, 3] := by
  constructor
  · rfl
  · intro h
    have := congrArg (fun l => l.getD 0 (0 : ℚ)) h
    simp [PlottingPosition.weibulCall] at this

/-- C9 amended: weibul sorts a fresh copy of the sample (np.array copies
its input), so the caller's array is returned unchanged, and the returned
probabilities are those of weibul on the unmodified argument. -/
theorem weibul_pure_frame (data : List α) (returnPeriod : Bool) :
    (PlottingPosition.weibulCall data returnPeriod).2 = data ∧
    (PlottingPosition.weibulCall data returnPeriod).1 =
      PlottingPosition.weibul data returnPeriod :=
  ⟨rfl, rfl⟩

/-- C2 (code bug witness): theoretical_estimate does NOT raise on
probabilities outside (0, 1].  For Gumbel with loc 0 and scale 1 the
probability list [3/2] passes the guard if any(cdf) <= 0 or any(cdf) > 1:
(any([3/2]) is True, and True <= 0, True > 1 are both False) and a value is
computed; for GEV the guard if any(F) < 0 or any(F) > 1: can never fire at
all, here shown at F = [5]. -/
theorem quantile_accepts_out_of_range_F :
    Gumbel.theoretical_estimate (α := ℚ) (fun _ => 0) ⟨0, 1⟩ [3 / 2] =
      .ok [0] ∧
    GEV.theoretical_estimate (α := ℚ) (fun _ _ _ _ => 0) ⟨0, 1, 0⟩ [5] =
      .ok [0] ∧
    anyGtOne [(3 : ℚ) / 2] = false ∧ anyLtZero [(5 : ℚ)] = false := by
  refine ⟨?_, ?_, anyGtOne_eq_false _, anyLtZero_eq_false _⟩
  · have hF : pyAny [(3 : ℚ) / 2] = true := by norm_num [pyAny]
    simp [Gumbel.theoretical_estimate, anyLeZero_eq_false hF,
      anyGtOne_eq_false]
  · simp [GEV.theoretical_estimate, anyLtZero_eq_false, anyGtOne_eq_false]

/-- C1 counterexample: GEV.pdf performs no scale validation — at
shape 0, loc 0 and scale -1 (so scale ≤ 0) it returns a value list
instead of raising an InvalidParameter error. -/
theorem gev_pdf_no_scale_check_cex :
    GEV.pdf (α := ℚ) (fun _ _ _ _ => 0) [0] ⟨0, -1, 0⟩ = .ok [0] ∧
    (⟨0, -1, 0⟩ : Params3 ℚ).scale ≤ 0 :=
  ⟨rfl, neg_nonpos.mpr zero_le_one⟩

/-- C1 amended: whenever scale ≤ 0, the operations pdf, cdf and
theoretical_estimate all raise an InvalidParameter ValueError before
computing anything for Gumbel, Exponential and Normal, and cdf and
theoretical_estimate do so for GEV as well; GEV's pdf alone skips the
validation and returns the library pdf values. -/
theorem scale_validation_amended (gumPdf gumCdf expPdf expCdf expPpf
    normPdf normCdf normPpf : α → α → α → α) (logP : α → α)
    (gevPdf gevCdf gevPpf : α → α → α → α → α) (data F : List α)
    (p2 : Params2 α) (p3 : Params3 α) (hp2 : p2.scale ≤ 0)
    (hp3 : p3.scale ≤ 0) :
    Gumbel.pdf gumPdf data p2 = .error .scaleNeg ∧
    Gumbel.cdf gumCdf data p2 = .error .scaleNeg ∧
    Gumbel.theoretical_estimate logP p2 F = .error .scaleNeg ∧
    GEV.cdf gevCdf data p3 = .error .scaleNeg ∧
    GEV.theoretical_estimate gevPpf p3 F = .error .paramsInvalid ∧
    Exponential.pdf expPdf data p2 = .error .scaleNeg ∧
    Exponential.cdf expCdf data p2 = .error .scaleNeg ∧
    Exponential.theoretical_estimate expPpf p2 F = .error .paramsInvalid ∧
    Normal.pdf normPdf data p2 = .error .scaleNeg ∧
    Normal.cdf normCdf data p2 = .error .scaleNeg ∧
    Normal.theoretical_estimate normPpf p2 F = .error .paramsInvalid ∧
    GEV.pdf gevPdf data p3 = .ok (data.map
      (fun x => gevPdf x p3.shape p3.loc p3.scale)) ∧
    PyErr.scaleNeg.isValueError = true ∧
    PyErr.paramsInvalid.isValueError = true := by
  refine ⟨?_, ?_, ?_, ?_, ?_, ?_, ?_, ?_, ?_, ?_, ?_, rfl, rfl, rfl⟩ <;>
    simp [Gumbel.pdf, Gumbel.pdf_eq, Gumbel.cdf, Gumbel.cdf_eq,
      Gumbel.theoretical_estimate, GEV.cdf, GEV.theoretical_estimate,
      Exponential.pdf, Exponential.cdf, Exponential.cdf_eq,
      Exponential.theoretical_estimate, Normal.pdf, Normal.cdf,
      Normal.theoretical_estimate, hp2, hp3]

theorem scale_validation_amended_witness :
    ((⟨0, -1⟩ : Params2 ℚ).scale ≤ 0 ∧
      (⟨0, -1, 0⟩ : Params3 ℚ).scale ≤ 0) ∧
    (Gumbel.pdf (fun _ _ _ => (0 : ℚ)) [1] ⟨0, -1⟩ = .error .scaleNeg ∧
    Gumbel.cdf (fun _ _ _ => (0 : ℚ)) [1] ⟨0, -1⟩ = .error .scaleNeg ∧
    Gumbel.theoretical_estimate (fun _ => (0 : ℚ)) ⟨0, -1⟩ [1] =
      .error .scaleNeg ∧
    GEV.cdf (fun _ _ _ _ => (0 : ℚ)) [1] ⟨0, -1, 0⟩ = .error .scaleNeg ∧
    GEV.theoretical_estimate (fun _ _ _ _ => (0 : ℚ)) ⟨0, -1, 0⟩ [1] =
      .error .paramsInvalid ∧
    Exponential.pdf (fun _ _ _ => (0 : ℚ)) [1] ⟨0, -1⟩ = .error .scaleNeg ∧
    Exponential.cdf (fun _ _ _ => (0 : ℚ)) [1] ⟨0, -1⟩ = .error .scaleNeg ∧
    Exponential.theoretical_estimate (fun _ _ _ => (0 : ℚ)) ⟨0, -1⟩ [1] =
      .error .paramsInvalid ∧
    Normal.pdf (fun _ _ _ => (0 : ℚ)) [1] ⟨0, -1⟩ = .error .scaleNeg ∧
    Normal.cdf (fun _ _ _ => (0 : ℚ)) [1] ⟨0, -1⟩ = .error .scaleNeg ∧
    Normal.theoretical_estimate (fun _ _ _ => (0 : ℚ)) ⟨0, -1⟩ [1] =
      .error .paramsInvalid ∧
    GEV.pdf (fun _ _ _ _ => (0 : ℚ)) [1] ⟨0, -1, 0⟩ =
      .ok ([1].map (fun _ => (0 : ℚ))) ∧
    PyErr.scaleNeg.isValueError = true ∧
    PyErr.paramsInvalid.isValueError = true) :=
  ⟨⟨neg_nonpos.mpr zero_le_one, neg_nonpos.mpr zero_le_one⟩,
    scale_validation_amended (fun _ _ _ => (0 : ℚ)) (fun _ _ _ => (0 : ℚ))
      (fun _ _ _ => (0 : ℚ)) (fun _ _ _ => (0 : ℚ)) (fun _ _ _ => (0 : ℚ))
      (fun _ _ _ => (0 : ℚ)) (fun _ _ _ => (0 : ℚ)) (fun _ _ _ => (0 : ℚ))
      (fun _ => (0 : ℚ)) (fun _ _ _ _ => (0 : ℚ)) (fun _ _ _ _ => (0 : ℚ))
      (fun _ _ _ _ => (0 : ℚ)) [1] [1] ⟨0, -1⟩ ⟨0, -1, 0⟩
      (neg_nonpos.mpr zero_le_one) (neg_nonpos.mpr zero_le_one)⟩

/-- C8: with scale > 0 and loc ≤ 0, Exponential.cdf and Normal.cdf raise
the InvalidParameter ValueError about the location, while Exponential.pdf
and Normal.pdf accept the same parameters without error and return the
library pdf values. -/
theorem loc_validation_asymmetry
    (expPdf expCdf normPdf normCdf : α → α → α → α) (data : List α)
    (p : Params2 α) (hscale : 0 < p.scale) (hloc : p.loc ≤ 0) :
    Exponential.cdf expCdf data p = .error .locNonPos ∧
    Exponential.pdf expPdf data p =
      .ok (data.map (fun x => expPdf x p.loc p.scale)) ∧
    Normal.cdf normCdf data p = .error .locNonPos ∧
    Normal.pdf normPdf data p =
      .ok (data.map (fun x => normPdf x p.loc p.scale)) ∧
    PyErr.locNonPos.isValueError = true := by
  have h1 : ¬p.scale ≤ 0 := not_le.mpr hscale
  refine ⟨?_, ?_, ?_, ?_, rfl⟩ <;>
    simp [Exponential.cdf, Exponential.cdf_eq, Exponential.pdf,
      Exponential.pdf_eq, Normal.cdf, Normal.pdf, h1, hloc]

theorem loc_validation_asymmetry_witness :
    (0 < (⟨0, 1⟩ : Params2 ℚ).scale ∧ (⟨0, 1⟩ : Params2 ℚ).loc ≤ 0) ∧
    (Exponential.cdf (fun _ _ _ => (0 : ℚ)) [1] ⟨0, 1⟩ =
      .error .locNonPos ∧
    Exponential.pdf (fun _ _ _ => (0 : ℚ)) [1] ⟨0, 1⟩ =
      .ok ([1].map (fun _ => (0 : ℚ))) ∧
    Normal.cdf (fun _ _ _ => (0 : ℚ)) [1] ⟨0, 1⟩ = .error .locNonPos ∧
    Normal.pdf (fun _ _ _ => (0 : ℚ)) [1] ⟨0, 1⟩ =
      .ok ([1].map (fun _ => (0 : ℚ))) ∧
    PyErr.locNonPos.isValueError = true) :=
  ⟨⟨one_pos, le_refl 0⟩,
    loc_validation_asymmetry (fun _ _ _ => (0 : ℚ)) (fun _ _ _ => (0 : ℚ))
      (fun _ _ _ => (0 : ℚ)) (fun _ _ _ => (0 : ℚ)) [1] ⟨0, 1⟩ one_pos
      (le_refl 0)⟩

/-- C3: for each family, estimate_parameter with method "optimization"
raises the MissingArgument TypeError when the objective function or the
threshold is absent; otherwise it computes the unconstrained MLE fit,
seeds so.fmin with [threshold, *mle_params] capped at 500 iterations and
500 function evaluations, and the returned ParameterSet keeps only the
distribution parameters, dropping component 0 (the fitted threshold) of
the minimizer's result. -/
theorem optimization_method_contract
    (fit2 fit3 : List α → String → List α) (lmom2 lmom3 : List α → List α)
    (fmin : (List α → List α → α) → List α → List α → Nat → Nat → List α)
    (f : List α → List α → α) (t : α) (data : List α)
    (objF : Option (List α → List α → α)) (thr : Option α) :
    (Gumbel.estimate_parameter fit2 lmom2 fmin "optimization" none thr
        data = .error .missingArgument) ∧
    (Gumbel.estimate_parameter fit2 lmom2 fmin "optimization" objF none
        data = .error .missingArgument) ∧
    (Gumbel.estimate_parameter fit2 lmom2 fmin "optimization" (some f)
        (some t) data =
      .ok ⟨(fmin f [t, (fit2 data "mle").getD 0 0, (fit2 data "mle").getD
            1 0] data 500 500).getD 1 0,
          (fmin f [t, (fit2 data "mle").getD 0 0, (fit2 data "mle").getD
            1 0] data 500 500).getD 2 0⟩) ∧
    (GEV.estimate_parameter fit3 lmom3 fmin "optimization" none thr data =
      .error .missingArgument) ∧
    (GEV.estimate_parameter fit3 lmom3 fmin "optimization" objF none data =
      .error .missingArgument) ∧
    (GEV.estimate_parameter fit3 lmom3 fmin "optimization" (some f)
        (some t) data =
      .ok ⟨(fmin f [t, (fit3 data "mle").getD 0 0, (fit3 data "mle").getD
            1 0, (fit3 data "mle").getD 2 0] data 500 500).getD 2 0,
          (fmin f [t, (fit3 data "mle").getD 0 0, (fit3 data "mle").getD
            1 0, (fit3 data "mle").getD 2 0] data 500 500).getD 3 0,
          (fmin f [t, (fit3 data "mle").getD 0 0, (fit3 data "mle").getD
            1 0, (fit3 data "mle").getD 2 0] data 500 500).getD 1 0⟩) ∧
    (Exponential.estimate_parameter fit2 lmom2 fmin "optimization" none
        thr data = .error .missingArgument) ∧
    (Exponential.estimate_parameter fit2 lmom2 fmin "optimization" objF
        none data = .error .missingArgument) ∧
    (Exponential.estimate_parameter fit2 lmom2 fmin "optimization"
        (some f) (some t) data =
      .ok ⟨(fmin f [t, (fit2 data "mle").getD 0 0, (fit2 data "mle").getD
            1 0] data 500 500).getD 1 0,
          (fmin f [t, (fit2 data "mle").getD 0 0, (fit2 data "mle").getD
            1 0] data 500 500).getD 2 0⟩) ∧
    (Normal.estimate_parameter fit2 lmom2 fmin "optimization" none thr
        data = .error .missingArgument) ∧
    (Normal.estimate_parameter fit2 lmom2 fmin "optimization" objF none
        data = .error .missingArgument) ∧
    (Normal.estimate_parameter fit2 lmom2 fmin "optimization" (some f)
        (some t) data =
      .ok ⟨(fmin f [t, (fit2 data "mle").getD 0 0, (fit2 data "mle").getD
            1 0] data 500 500).getD 1 0,
          (fmin f [t, (fit2 data "mle").getD 0 0, (fit2 data "mle").getD
            1 0] data 500 500).getD 2 0⟩) := by
  refine ⟨rfl, ?_, rfl, rfl, ?_, rfl, rfl, ?_, rfl, rfl, ?_, rfl⟩ <;>
    rcases objF with _ | g <;> rfl

/-- C6 counterexample: an unfit Normal instance does not raise the NotFit
ValueError from ks() or chisquare() — Normal.__init__ never assigns
self.parameters, so reading it raises AttributeError, which is not a
ValueError. -/
theorem normal_unfit_gof_attribute_error_cex :
    Normal.ks (α := ℚ) (fun _ _ _ => 0) (fun _ _ => (0, 0)) [1] [1]
      Normal.initState = (.error .attributeMissing, Normal.initState) ∧
    Normal.chisquare (α := ℚ) (fun _ _ _ => 0) (fun _ _ => .error ()) [1]
      [1] Normal.initState =
      (.error .attributeMissing, Normal.initState) ∧
    PyErr.attributeMissing.isValueError = false :=
  ⟨rfl, rfl, rfl⟩

/-- C6 amended: for Gumbel, GEV and Exponential (whose shared constructor
stores the given parameters, None when absent), calling ks() or
chisquare() on an unfit instance raises the NotFit ValueError and leaves
the instance state unchanged; for Normal, whose constructor never assigns
the parameters attribute, the same calls instead raise AttributeError,
which is not the NotFit ValueError. -/
theorem unfit_gof_notfit_amended {P : Type}
    (theorEst : P → List α → Except PyErr (List α))
    (theorEstN : Params2 α → List α → Except PyErr (List α))
    (ks2samp ks2sampN : List α → List α → α × α)
    (chiTest chiTestN : List α → List α → Except Unit (α × α))
    (data cdfW : List α) (st : InstState α P)
    (h : st.parameters = some none) :
    ksRun theorEst ks2samp data cdfW st = (.error .notFit, st) ∧
    chisquareRun theorEst chiTest data cdfW st = (.error .notFit, st) ∧
    PyErr.notFit.isValueError = true ∧
    ksRun theorEstN ks2sampN data cdfW Normal.initState =
      (.error .attributeMissing, Normal.initState) ∧
    chisquareRun theorEstN chiTestN data cdfW Normal.initState =
      (.error .attributeMissing, Normal.initState) ∧
    PyErr.attributeMissing.isValueError = false := by
  obtain ⟨prm, d1, d2, d3, d4⟩ := st
  have h' : prm = some none := h
  subst h'
  exact ⟨rfl, rfl, rfl, rfl, rfl, rfl⟩

theorem unfit_gof_notfit_amended_witness :
    ((initShared none : InstState ℚ (Params2 ℚ)).parameters =
      some none) ∧
    (ksRun (fun (_ : Params2 ℚ) (_ : List ℚ) =>
          (Except.ok [] : Except PyErr (List ℚ)))
        (fun _ _ => ((0 : ℚ), (0 : ℚ))) [(1 : ℚ)] [(1 : ℚ)]
        (initShared none : InstState ℚ (Params2 ℚ)) =
      (.error .notFit, (initShared none : InstState ℚ (Params2 ℚ))) ∧
    chisquareRun (fun (_ : Params2 ℚ) (_ : List ℚ) =>
          (Except.ok [] : Except PyErr (List ℚ)))
        (fun _ _ => (Except.error () : Except Unit (ℚ × ℚ))) [(1 : ℚ)]
        [(1 : ℚ)] (initShared none : InstState ℚ (Params2 ℚ)) =
      (.error .notFit, (initShared none : InstState ℚ (Params2 ℚ))) ∧
    PyErr.notFit.isValueError = true ∧
    ksRun (fun (_ : Params2 ℚ) (_ : List ℚ) =>
          (Except.ok [] : Except PyErr (List ℚ)))
        (fun _ _ => ((0 : ℚ), (0 : ℚ))) [(1 : ℚ)] [(1 : ℚ)]
        Normal.initState = (.error .attributeMissing, Normal.initState) ∧
    chisquareRun (fun (_ : Params2 ℚ) (_ : List ℚ) =>
          (Except.ok [] : Except PyErr (List ℚ)))
        (fun _ _ => (Except.error () : Except Unit (ℚ × ℚ))) [(1 : ℚ)]
        [(1 : ℚ)] Normal.initState =
      (.error .attributeMissing, Normal.initState) ∧
    PyErr.attributeMissing.isValueError = false) :=
  ⟨rfl, unfit_gof_notfit_amended
    (fun (_ : Params2 ℚ) (_ : List ℚ) =>
      (Except.ok [] : Except PyErr (List ℚ)))
    (fun (_ : Params2 ℚ) (_ : List ℚ) =>
      (Except.ok [] : Except PyErr (List ℚ)))
    (fun _ _ => ((0 : ℚ), (0 : ℚ))) (fun _ _ => ((0 : ℚ), (0 : ℚ)))
    (fun _ _ => (Except.error () : Except Unit (ℚ × ℚ)))
    (fun _ _ => (Except.error () : Except Unit (ℚ × ℚ))) [(1 : ℚ)]
    [(1 : ℚ)] (initShared none : InstState ℚ (Params2 ℚ)) rfl⟩

/-- C7 counterexample: the catch-and-report leniency for chi-square
failures is not confined to GEV and Exponential — Gumbel's chisquare (the
inherited shared method) also swallows a failing chi-square computation
and returns the None sentinel, and Gumbel's estimate_parameter test phase
(which has no try/except wrapper, wrapChi = false) still completes without
an error. -/
theorem gumbel_chisquare_swallows_failure_cex :
    Gumbel.chisquare (α := ℚ) (fun _ => 0) (fun _ _ => .error ()) [1] [1]
      ⟨some (some ⟨0, 1⟩), none, none, none, none⟩ =
      (.ok none, ⟨some (some ⟨0, 1⟩), none, none, none, none⟩) ∧
    runTests (α := ℚ) (Gumbel.theoretical_estimate (fun _ => 0))
      (fun _ _ => (0, 0)) (fun _ _ => .error ()) false [1] [1]
      ⟨some (some ⟨0, 1⟩), none, none, none, none⟩ =
      .ok ⟨some (some ⟨0, 1⟩), some 0, some 0, none, none⟩ := by
  have hF : pyAny [(1 : ℚ)] = true := by simp [pyAny]
  have hte := gumbel_te_eval (fun _ => (0 : ℚ)) ⟨0, 1⟩ [1] one_pos hF
  constructor
  · simp [Gumbel.chisquare, chisquareRun, hte]
  · simp [runTests, ksRun, chisquareRun, hte]

/-- C7 amended: the internal chi-square failure is caught inside the
shared chisquare method itself, which reports it and returns the None
sentinel with the instance state unchanged — this holds for every family,
since each family's chisquare delegates to the shared one — and therefore
estimate_parameter's test phase never propagates a chi-square computation
failure, whether or not the family additionally wraps the chisquare call
in try/except ValueError (Gumbel does not; GEV, Exponential and Normal
do). -/
theorem chisquare_failure_policy_amended {P : Type}
    (theorEst : P → List α → Except PyErr (List α))
    (ks2samp : List α → List α → α × α)
    (chiTest : List α → List α → Except Unit (α × α)) (wrapChi : Bool)
    (data cdfW qth : List α) (st : InstState α P) (p : P)
    (hst : st.parameters = some (some p))
    (hth : theorEst p cdfW = .ok qth)
    (hchi : ∀ a b, chiTest a b = .error ()) :
    chisquareRun theorEst chiTest data cdfW st = (.ok none, st) ∧
    runTests theorEst ks2samp chiTest wrapChi data cdfW st =
      .ok ⟨st.parameters, some (ks2samp data qth).1,
        some (ks2samp data qth).2, st.chistatic, st.chi_Pvalue⟩ := by
  obtain ⟨prm, d1, d2, d3, d4⟩ := st
  have h' : prm = some (some p) := hst
  subst h'
  constructor
  · simp [chisquareRun, hth, hchi]
  · simp [runTests, ksRun, chisquareRun, hth, hchi]

theorem chisquare_failure_policy_amended_witness :
    ((⟨some (some ⟨0, 1⟩), none, none, none, none⟩ :
        InstState ℚ (Params2 ℚ)).parameters = some (some ⟨0, 1⟩) ∧
      (fun (_ : Params2 ℚ) (_ : List ℚ) =>
        (Except.ok [] : Except PyErr (List ℚ))) ⟨0, 1⟩ [(1 : ℚ)] =
        .ok []) ∧
    (chisquareRun (fun (_ : Params2 ℚ) (_ : List ℚ) =>
          (Except.ok [] : Except PyErr (List ℚ)))
        (fun _ _ => (Except.error () : Except Unit (ℚ × ℚ))) [(1 : ℚ)]
        [(1 : ℚ)] (⟨some (some ⟨0, 1⟩), none, none, none, none⟩ :
          InstState ℚ (Params2 ℚ)) =
      (.ok none, (⟨some (some ⟨0, 1⟩), none, none, none, none⟩ :
        InstState ℚ (Params2 ℚ))) ∧
    runTests (fun (_ : Params2 ℚ) (_ : List ℚ) =>
          (Except.ok [] : Except PyErr (List ℚ)))
        (fun _ _ => ((0 : ℚ), (0 : ℚ)))
        (fun _ _ => (Except.error () : Except Unit (ℚ × ℚ))) false
        [(1 : ℚ)] [(1 : ℚ)]
        (⟨some (some ⟨0, 1⟩), none, none, none, none⟩ :
          InstState ℚ (Params2 ℚ)) =
      .ok ⟨(⟨some (some ⟨0, 1⟩), none, none, none, none⟩ :
          InstState ℚ (Params2 ℚ)).parameters,
        some ((fun (_ _ : List ℚ) => ((0 : ℚ), (0 : ℚ))) [(1 : ℚ)] []).1,
        some ((fun (_ _ : List ℚ) => ((0 : ℚ), (0 : ℚ))) [(1 : ℚ)] []).2,
        (⟨some (some ⟨0, 1⟩), none, none, none, none⟩ :
          InstState ℚ (Params2 ℚ)).chistatic,
        (⟨some (some ⟨0, 1⟩), none, none, none, none⟩ :
          InstState ℚ (Params2 ℚ)).chi_Pvalue⟩) :=
  ⟨⟨rfl, rfl⟩, chisquare_failure_policy_amended
    (fun (_ : Params2 ℚ) (_ : List ℚ) =>
      (Except.ok [] : Except PyErr (List ℚ)))
    (fun _ _ => ((0 : ℚ), (0 : ℚ)))
    (fun _ _ => (Except.error () : Except Unit (ℚ × ℚ))) false [(1 : ℚ)]
    [(1 : ℚ)] [] ⟨some (some ⟨0, 1⟩), none, none, none, none⟩ ⟨0, 1⟩ rfl
    rfl (fun _ _ => rfl)⟩

theorem getD_of_lt (l : List α) {j : Nat} (h : j < l.length) :
    l[j]? = some (l.getD j 0) := by
  rw [List.getElem?_eq_getElem h, List.getD_eq_getElem l 0 h]

theorem boundLoop_cons (f : α → α → α) (qth se : List α) (j : Nat)
    (js : List Nat) :
    boundLoop f qth se (j :: js) =
      match qth[j]?, se[j]? with
      | some q, some s =>
        match boundLoop f qth se js with
        | .ok rest => .ok (f q s :: rest)
        | .error e => .error e
      | some _, none => .error .indexOutOfRange
      | none, _ => .error .indexOutOfRange := rfl

theorem boundLoop_ok (f : α → α → α) (qth se : List α) :
    ∀ js : List Nat, (∀ j ∈ js, j < qth.length ∧ j < se.length) →
      boundLoop f qth se js =
        .ok (js.map (fun j => f (qth.getD j 0) (se.getD j 0)))
  | [], _ => rfl
  | j :: js, h => by
    obtain ⟨h1, h2⟩ := h j (List.mem_cons_self j js)
    have ih := boundLoop_ok f qth se js
      (fun i hi => h i (List.mem_cons_of_mem _ hi))
    rw [boundLoop_cons, getD_of_lt qth h1, getD_of_lt se h2, ih]
    rfl

theorem boundLoop_err (f : α → α → α) (qth se : List α) :
    ∀ js : List Nat, (∃ j ∈ js, qth.length ≤ j ∨ se.length ≤ j) →
      boundLoop f qth se js = .error .indexOutOfRange
  | [], hex => by simp at hex
  | j :: js, hex => by
    obtain ⟨i, hi, hbad⟩ := hex
    rcases List.mem_cons.mp hi with rfl | hi'
    · rcases hbad with hb | hb
      · rw [boundLoop_cons, List.getElem?_eq_none hb]
      · cases hq : qth[i]? with
        | none => rw [boundLoop_cons, hq]
        | some q => rw [boundLoop_cons, hq, List.getElem?_eq_none hb]
    · cases hq : qth[j]? with
      | none => rw [boundLoop_cons, hq]
      | some q =>
        cases hs : se[j]? with
        | none => rw [boundLoop_cons, hq, hs]
        | some s =>
          have ih := boundLoop_err f qth se js ⟨i, hi', hbad⟩
          rw [boundLoop_cons, hq, hs, ih]

theorem gumbel_ci_eval (logP sqrtP ppfP : α → α) (data : List α)
    (p : Params2 α) (F : List α) (alpha : α) (hscale : 0 < p.scale)
    (hF : pyAny F = true) (hlen : data.length ≤ F.length) :
    Gumbel.confidence_interval logP sqrtP ppfP data p F alpha =
      .ok ((List.range data.length).map (fun i =>
            Gumbel.theoreticalQuantile logP p F i + ppfP (1 - alpha / 2) *
              Gumbel.stdError logP sqrtP data.length p F i),
          (List.range data.length).map (fun i =>
            Gumbel.theoreticalQuantile logP p F i - ppfP (1 - alpha / 2) *
              Gumbel.stdError logP sqrtP data.length p F i)) := by
  have hte := gumbel_te_eval logP p F hscale hF
  have hmem : ∀ j ∈ List.range data.length,
      j < (F.map (fun f : α =>
        p.loc - p.scale * logP (-(logP f)))).length ∧
      j < ((F.map (fun j : α => -(logP (-(logP j))))).map (fun j : α =>
        (p.scale / sqrtP ((data.length : α))) *
          sqrtP ((11087 : α) / 10000 + (5140 : α) / 10000 * j +
            (6079 : α) / 10000 * j ^ 2))).length := by
    intro j hj
    have hj' : j < data.length := List.mem_range.mp hj
    constructor <;> simp <;> omega
  have hup := boundLoop_ok (fun q s => q + ppfP (1 - alpha / 2) * s) _ _
    (List.range data.length) hmem
  have hlo := boundLoop_ok (fun q s => q - ppfP (1 - alpha / 2) * s) _ _
    (List.range data.length) hmem
  have hqth : ∀ j, j < data.length →
      (F.map (fun f : α =>
        p.loc - p.scale * logP (-(logP f)))).getD j 0 =
      Gumbel.theoreticalQuantile logP p F j := by
    intro j hj
    have hjF : j < F.length := lt_of_lt_of_le hj hlen
    rw [getD_map_of_lt _ _ hjF]
    rfl
  have hsel : ∀ j, j < data.length →
      ((F.map (fun j : α => -(logP (-(logP j))))).map (fun j : α =>
        (p.scale / sqrtP ((data.length : α))) *
          sqrtP ((11087 : α) / 10000 + (5140 : α) / 10000 * j +
            (6079 : α) / 10000 * j ^ 2))).getD j 0 =
      Gumbel.stdError logP sqrtP data.length p F j := by
    intro j hj
    have hjF : j < F.length := lt_of_lt_of_le hj hlen
    have hjY : j < (F.map (fun j : α => -(logP (-(logP j))))).length := by
      simpa using hjF
    rw [getD_map_of_lt _ _ hjY, getD_map_of_lt _ _ hjF]
    rfl
  simp only [Gumbel.confidence_interval, not_le.mpr hscale, if_false, hte,
    hup, hlo]
  refine congrArg Except.ok (Prod.ext ?_ ?_) <;>
  · apply List.map_congr_left
    intro j hj
    have hj' : j < data.length := List.mem_range.mp hj
    simp only [hqth j hj', hsel j hj']

/-- C4: for a Gumbel sample of length n, scale > 0, alpha in (0, 1) and a
valid probability list F (nonzero entries, at least n of them, as the
closed-form interval indexes F by the sample length), confidence_interval
returns exactly the bounds Qth ± z·se with Qth[j] = loc - scale·ln(-ln F[j]),
se the asymptotic standard error of the reduced variate and z the standard
normal quantile at 1 - alpha/2 (nonnegative there since 1 - alpha/2 ≥ 1/2);
in particular the bounds bracket Qth pointwise. -/
theorem gumbel_ci_closed_form (logP sqrtP ppfP : α → α) (data : List α)
    (p : Params2 α) (F : List α) (alpha : α) (j : Nat)
    (hscale : 0 < p.scale) (halpha : 0 < alpha ∧ alpha < 1)
    (hF : pyAny F = true) (hlen : data.length ≤ F.length)
    (hsqrt : ∀ x, 0 ≤ sqrtP x) (hz : 0 ≤ ppfP (1 - alpha / 2))
    (hj : j < data.length) :
    Gumbel.confidence_interval logP sqrtP ppfP data p F alpha =
      .ok ((List.range data.length).map (fun i =>
            Gumbel.theoreticalQuantile logP p F i + ppfP (1 - alpha / 2) *
              Gumbel.stdError logP sqrtP data.length p F i),
          (List.range data.length).map (fun i =>
            Gumbel.theoreticalQuantile logP p F i - ppfP (1 - alpha / 2) *
              Gumbel.stdError logP sqrtP data.length p F i)) ∧
    ((List.range data.length).map (fun i =>
        Gumbel.theoreticalQuantile logP p F i + ppfP (1 - alpha / 2) *
          Gumbel.stdError logP sqrtP data.length p F i)).getD j 0 =
      Gumbel.theoreticalQuantile logP p F j + ppfP (1 - alpha / 2) *
        Gumbel.stdError logP sqrtP data.length p F j ∧
    ((List.range data.length).map (fun i =>
        Gumbel.theoreticalQuantile logP p F i - ppfP (1 - alpha / 2) *
          Gumbel.stdError logP sqrtP data.length p F i)).getD j 0 =
      Gumbel.theoreticalQuantile logP p F j - ppfP (1 - alpha / 2) *
        Gumbel.stdError logP sqrtP data.length p F j ∧
    Gumbel.theoreticalQuantile logP p F j - ppfP (1 - alpha / 2) *
        Gumbel.stdError logP sqrtP data.length p F j ≤
      Gumbel.theoreticalQuantile logP p F j ∧
    Gumbel.theoreticalQuantile logP p F j ≤
      Gumbel.theoreticalQuantile logP p F j + ppfP (1 - alpha / 2) *
        Gumbel.stdError logP sqrtP data.length p F j := by
  have hse : 0 ≤ Gumbel.stdError logP sqrtP data.length p F j :=
    mul_nonneg (div_nonneg hscale.le (hsqrt _)) (hsqrt _)
  have hzs : 0 ≤ ppfP (1 - alpha / 2) *
      Gumbel.stdError logP sqrtP data.length p F j := mul_nonneg hz hse
  refine ⟨gumbel_ci_eval logP sqrtP ppfP data p F alpha hscale hF hlen,
    getD_map_range _ hj, getD_map_range _ hj, by linarith, by linarith⟩

theorem gumbel_ci_closed_form_witness :
    (0 < (⟨0, 1⟩ : Params2 ℚ).scale ∧
      ((0 : ℚ) < 1 / 2 ∧ (1 : ℚ) / 2 < 1) ∧
      pyAny [(1 : ℚ)] = true ∧
      [(1 : ℚ)].length ≤ [(1 : ℚ)].length ∧
      (0 : ℚ) ≤ (fun _ : ℚ => (0 : ℚ)) (1 - 1 / 2 / 2) ∧
      0 < [(1 : ℚ)].length) ∧
    (Gumbel.confidence_interval (fun _ : ℚ => (0 : ℚ))
        (fun _ : ℚ => (0 : ℚ)) (fun _ : ℚ => (0 : ℚ)) [(1 : ℚ)] ⟨0, 1⟩
        [(1 : ℚ)] (1 / 2) =
      .ok ((List.range [(1 : ℚ)].length).map (fun i =>
            Gumbel.theoreticalQuantile (fun _ : ℚ => (0 : ℚ)) ⟨0, 1⟩
              [(1 : ℚ)] i + (fun _ : ℚ => (0 : ℚ)) (1 - 1 / 2 / 2) *
              Gumbel.stdError (fun _ : ℚ => (0 : ℚ))
                (fun _ : ℚ => (0 : ℚ)) [(1 : ℚ)].length ⟨0, 1⟩
                [(1 : ℚ)] i),
          (List.range [(1 : ℚ)].length).map (fun i =>
            Gumbel.theoreticalQuantile (fun _ : ℚ => (0 : ℚ)) ⟨0, 1⟩
              [(1 : ℚ)] i - (fun _ : ℚ => (0 : ℚ)) (1 - 1 / 2 / 2) *
              Gumbel.stdError (fun _ : ℚ => (0 : ℚ))
                (fun _ : ℚ => (0 : ℚ)) [(1 : ℚ)].length ⟨0, 1⟩
                [(1 : ℚ)] i)) ∧
    ((List.range [(1 : ℚ)].length).map (fun i =>
        Gumbel.theoreticalQuantile (fun _ : ℚ => (0 : ℚ)) ⟨0, 1⟩
          [(1 : ℚ)] i + (fun _ : ℚ => (0 : ℚ)) (1 - 1 / 2 / 2) *
          Gumbel.stdError (fun _ : ℚ => (0 : ℚ)) (fun _ : ℚ => (0 : ℚ))
            [(1 : ℚ)].length ⟨0, 1⟩ [(1 : ℚ)] i)).getD 0 0 =
      Gumbel.theoreticalQuantile (fun _ : ℚ => (0 : ℚ)) ⟨0, 1⟩
        [(1 : ℚ)] 0 + (fun _ : ℚ => (0 : ℚ)) (1 - 1 / 2 / 2) *
        Gumbel.stdError (fun _ : ℚ => (0 : ℚ)) (fun _ : ℚ => (0 : ℚ))
          [(1 : ℚ)].length ⟨0, 1⟩ [(1 : ℚ)] 0 ∧
    ((List.range [(1 : ℚ)].length).map (fun i =>
        Gumbel.theoreticalQuantile (fun _ : ℚ => (0 : ℚ)) ⟨0, 1⟩
          [(1 : ℚ)] i - (fun _ : ℚ => (0 : ℚ)) (1 - 1 / 2 / 2) *
          Gumbel.stdError (fun _ : ℚ => (0 : ℚ)) (fun _ : ℚ => (0 : ℚ))
            [(1 : ℚ)].length ⟨0, 1⟩ [(1 : ℚ)] i)).getD 0 0 =
      Gumbel.theoreticalQuantile (fun _ : ℚ => (0 : ℚ)) ⟨0, 1⟩
        [(1 : ℚ)] 0 - (fun _ : ℚ => (0 : ℚ)) (1 - 1 / 2 / 2) *
        Gumbel.stdError (fun _ : ℚ => (0 : ℚ)) (fun _ : ℚ => (0 : ℚ))
          [(1 : ℚ)].length ⟨0, 1⟩ [(1 : ℚ)] 0 ∧
    Gumbel.theoreticalQuantile (fun _ : ℚ => (0 : ℚ)) ⟨0, 1⟩
        [(1 : ℚ)] 0 - (fun _ : ℚ => (0 : ℚ)) (1 - 1 / 2 / 2) *
        Gumbel.stdError (fun _ : ℚ => (0 : ℚ)) (fun _ : ℚ => (0 : ℚ))
          [(1 : ℚ)].length ⟨0, 1⟩ [(1 : ℚ)] 0 ≤
      Gumbel.theoreticalQuantile (fun _ : ℚ => (0 : ℚ)) ⟨0, 1⟩
        [(1 : ℚ)] 0 ∧
    Gumbel.theoreticalQuantile (fun _ : ℚ => (0 : ℚ)) ⟨0, 1⟩
        [(1 : ℚ)] 0 ≤
      Gumbel.theoreticalQuantile (fun _ : ℚ => (0 : ℚ)) ⟨0, 1⟩
        [(1 : ℚ)] 0 + (fun _ : ℚ => (0 : ℚ)) (1 - 1 / 2 / 2) *
        Gumbel.stdError (fun _ : ℚ => (0 : ℚ)) (fun _ : ℚ => (0 : ℚ))
          [(1 : ℚ)].length ⟨0, 1⟩ [(1 : ℚ)] 0) :=
  ⟨⟨one_pos, ⟨one_half_pos, one_half_lt_one⟩, by simp [pyAny], le_refl _,
    le_refl 0, Nat.zero_lt_one⟩,
    gumbel_ci_closed_form (fun _ : ℚ => (0 : ℚ)) (fun _ : ℚ => (0 : ℚ))
      (fun _ : ℚ => (0 : ℚ)) [(1 : ℚ)] ⟨0, 1⟩ [(1 : ℚ)] (1 / 2) 0 one_pos
      ⟨one_half_pos, one_half_lt_one⟩ (by simp [pyAny]) (le_refl _)
      (fun _ => le_refl 0) (le_refl 0) Nat.zero_lt_one⟩

/-- C10 counterexample: with the two-element sample [1, 2] and the
one-element probability array [0] — fewer elements than the sample —
Gumbel.confidence_interval raises the cdf-validation ValueError (the
entries are all zero, so the guard any(cdf) <= 0 fires inside
theoretical_estimate), not an out-of-range IndexError. -/
theorem gumbel_ci_short_F_value_error_cex :
    Gumbel.confidence_interval (fun _ : ℚ => (0 : ℚ))
      (fun _ : ℚ => (0 : ℚ)) (fun _ : ℚ => (0 : ℚ)) [1, 2] ⟨0, 1⟩ [0]
      (1 / 10) = .error .cdfInvalid ∧
    PyErr.cdfInvalid ≠ PyErr.indexOutOfRange ∧
    ([0] : List ℚ).length < ([1, 2] : List ℚ).length := by
  refine ⟨?_, by simp, by simp⟩
  have h0 : pyAny [(0 : ℚ)] = false := by simp [pyAny]
  have hg : anyLeZero [(0 : ℚ)] = true := by
    rw [anyLeZero_eq_not_any, h0]
    rfl
  norm_num [Gumbel.confidence_interval, Gumbel.theoretical_estimate, hg]

/-- C10 amended: with scale > 0 and a probability array F containing a
nonzero entry, Gumbel.confidence_interval returns bound arrays whose
length is the sample length n — not the number of requested
probabilities — whenever F has at least n elements, and raises IndexError
whenever F has fewer than n elements; an empty or all-zero F instead
trips the cdf-validation ValueError of theoretical_estimate first. -/
theorem gumbel_ci_length_amended (logP sqrtP ppfP : α → α)
    (data : List α) (p : Params2 α) (F : List α) (alpha : α)
    (hscale : 0 < p.scale) (hF : pyAny F = true) :
    (data.length ≤ F.length →
      Gumbel.confidence_interval logP sqrtP ppfP data p F alpha =
        .ok ((List.range data.length).map (fun i =>
              Gumbel.theoreticalQuantile logP p F i +
                ppfP (1 - alpha / 2) *
                Gumbel.stdError logP sqrtP data.length p F i),
            (List.range data.length).map (fun i =>
              Gumbel.theoreticalQuantile logP p F i -
                ppfP (1 - alpha / 2) *
                Gumbel.stdError logP sqrtP data.length p F i)) ∧
      ((List.range data.length).map (fun i =>
          Gumbel.theoreticalQuantile logP p F i + ppfP (1 - alpha / 2) *
            Gumbel.stdError logP sqrtP data.length p F i)).length =
        data.length ∧
      ((List.range data.length).map (fun i =>
          Gumbel.theoreticalQuantile logP p F i - ppfP (1 - alpha / 2) *
            Gumbel.stdError logP sqrtP data.length p F i)).length =
        data.length) ∧
    (F.length < data.length →
      Gumbel.confidence_interval logP sqrtP ppfP data p F alpha =
        .error .indexOutOfRange) := by
  constructor
  · intro hlen
    exact ⟨gumbel_ci_eval logP sqrtP ppfP data p F alpha hscale hF hlen,
      by simp, by simp⟩
  · intro hlt
    have hte := gumbel_te_eval logP p F hscale hF
    have herr := boundLoop_err (fun q s => q + ppfP (1 - alpha / 2) * s)
      (F.map (fun f : α => p.loc - p.scale * logP (-(logP f))))
      ((F.map (fun j : α => -(logP (-(logP j))))).map (fun j : α =>
        (p.scale / sqrtP ((data.length : α))) *
          sqrtP ((11087 : α) / 10000 + (5140 : α) / 10000 * j +
            (6079 : α) / 10000 * j ^ 2)))
      (List.range data.length)
      ⟨F.length, List.mem_range.mpr hlt, Or.inl (by simp)⟩
    simp only [Gumbel.confidence_interval, not_le.mpr hscale, if_false,
      hte, herr]

theorem gumbel_ci_length_amended_witness :
    (0 < (⟨0, 1⟩ : Params2 ℚ).scale ∧ pyAny [(1 : ℚ)] = true) ∧
    ((([(2 : ℚ)] : List ℚ).length ≤ ([(1 : ℚ)] : List ℚ).length →
      Gumbel.confidence_interval (fun _ : ℚ => (0 : ℚ))
          (fun _ : ℚ => (0 : ℚ)) (fun _ : ℚ => (0 : ℚ)) [(2 : ℚ)] ⟨0, 1⟩
          [(1 : ℚ)] (1 / 10) =
        .ok ((List.range ([(2 : ℚ)] : List ℚ).length).map (fun i =>
              Gumbel.theoreticalQuantile (fun _ : ℚ => (0 : ℚ)) ⟨0, 1⟩
                [(1 : ℚ)] i + (fun _ : ℚ => (0 : ℚ)) (1 - 1 / 10 / 2) *
                Gumbel.stdError (fun _ : ℚ => (0 : ℚ))
                  (fun _ : ℚ => (0 : ℚ)) ([(2 : ℚ)] : List ℚ).length
                  ⟨0, 1⟩ [(1 : ℚ)] i),
            (List.range ([(2 : ℚ)] : List ℚ).length).map (fun i =>
              Gumbel.theoreticalQuantile (fun _ : ℚ => (0 : ℚ)) ⟨0, 1⟩
                [(1 : ℚ)] i - (fun _ : ℚ => (0 : ℚ)) (1 - 1 / 10 / 2) *
                Gumbel.stdError (fun _ : ℚ => (0 : ℚ))
                  (fun _ : ℚ => (0 : ℚ)) ([(2 : ℚ)] : List ℚ).length
                  ⟨0, 1⟩ [(1 : ℚ)] i)) ∧
      ((List.range ([(2 : ℚ)] : List ℚ).length).map (fun i =>
          Gumbel.theoreticalQuantile (fun _ : ℚ => (0 : ℚ)) ⟨0, 1⟩
            [(1 : ℚ)] i + (fun _ : ℚ => (0 : ℚ)) (1 - 1 / 10 / 2) *
            Gumbel.stdError (fun _ : ℚ => (0 : ℚ))
              (fun _ : ℚ => (0 : ℚ)) ([(2 : ℚ)] : List ℚ).length ⟨0, 1⟩
              [(1 : ℚ)] i)).length = ([(2 : ℚ)] : List ℚ).length ∧
      ((List.range ([(2 : ℚ)] : List ℚ).length).map (fun i =>
          Gumbel.theoreticalQuantile (fun _ : ℚ => (0 : ℚ)) ⟨0, 1⟩
            [(1 : ℚ)] i - (fun _ : ℚ => (0 : ℚ)) (1 - 1 / 10 / 2) *
            Gumbel.stdError (fun _ : ℚ => (0 : ℚ))
              (fun _ : ℚ => (0 : ℚ)) ([(2 : ℚ)] : List ℚ).length ⟨0, 1⟩
              [(1 : ℚ)] i)).length = ([(2 : ℚ)] : List ℚ).length) ∧
    (([(1 : ℚ)] : List ℚ).length < ([(2 : ℚ)] : List ℚ).length →
      Gumbel.confidence_interval (fun _ : ℚ => (0 : ℚ))
          (fun _ : ℚ => (0 : ℚ)) (fun _ : ℚ => (0 : ℚ)) [(2 : ℚ)] ⟨0, 1⟩
          [(1 : ℚ)] (1 / 10) = .error .indexOutOfRange)) :=
  ⟨⟨one_pos, by simp [pyAny]⟩,
    gumbel_ci_length_amended (fun _ : ℚ => (0 : ℚ))
      (fun _ : ℚ => (0 : ℚ)) (fun _ : ℚ => (0 : ℚ)) [(2 : ℚ)] ⟨0, 1⟩
      [(1 : ℚ)] (1 / 10) one_pos (by simp [pyAny])⟩

end Facts

end Statista
